import Mathlib

/-!
Shallow embedding of `src/app.py` (Mobile JKN sentiment dashboard).

The application is a single Streamlit page.  At startup it loads two
pickled artifacts (`load_models`) and one CSV dataset (`load_data`), then
renders one of four views.  The development below embeds the parts of the
script that carry behaviour:

* the artifact loader `load_models`, which catches `FileNotFoundError`
  only;
* the dataset loader `load_data`, which catches `FileNotFoundError` only
  and applies a deserialisation step to every cell of the `stemming`
  column;
* the Prediksi Manual branch: the empty-input guard, the
  `vectorizer.transform` / `model.predict` / `model.decision_function`
  calls, the `abs(confidence)` display, and the `hasil_prediksi.lower()`
  styling dispatch;
* the Dashboard and Dataset branches as far as the claims need them.

Third-party objects (the sklearn vectorizer and model, `ast.literal_eval`)
are opaque collaborators of the script, so they are parameters of the
embedding: a `Vectorizer` is a function from a batch of texts to a feature
matrix, a `Model` maps a feature matrix to a list of labels and a list of
rational margins, and `ast.literal_eval` is a parameter
`litEval : String → PyResult (List String)` that may raise.  Python
exceptions are modelled by `PyResult`; an uncaught exception surfaces as
`PyResult.raised`, which on a Streamlit page is a crash of the view.
-/

/-- Python exceptions, as far as the script distinguishes them:
`FileNotFoundError` is the only class the script ever catches by name
(besides the catch-all `except Exception` of the prediction branch);
every other exception class is collapsed into `other` with its message. -/
inductive PyExn where
  | fileNotFound
  | other (msg : String)
deriving DecidableEq, Repr

/-- Result of running a piece of Python code: a value, or an uncaught
exception. -/
inductive PyResult (α : Type) where
  | ok (a : α)
  | raised (e : PyExn)
deriving DecidableEq, Repr

/-- The pickled vectorizer artifact, kept opaque: `transform` takes a batch
of raw texts (the script always passes the one-element list
`[user_input]`) and returns a feature matrix of type `F`. -/
structure Vectorizer (F : Type) where
  transform : List String → F

/-- The pickled SVM artifact, kept opaque: `predict` returns one label per
input row and `decision_function` one signed margin per input row.
Margins are embedded as rationals. -/
structure Model (F : Type) where
  predict : F → List String
  decision_function : F → List Rat

/-- One cell of the `stemming` column of the dataset: pandas hands the
lambda in `load_data` either a string (the serialized token list) or a
non-string value such as a NaN float, which the `isinstance(x, str)` test
of the lambda leaves unchanged. -/
inductive Cell where
  | str (s : String)
  | nonStr (tag : String)
deriving DecidableEq, Repr

/-- The loaded dataset, reduced to what the script reads: the column names
(for the `label in df.columns` test) and the cells of the `stemming`
column.  The number of rows is the length of `stemming`. -/
structure DataFrame where
  columns : List String
  stemming : List Cell
deriving DecidableEq, Repr

/-- Elements the embedded views emit, standing for the `st.*` render calls
the claims talk about. -/
inductive UIElement where
  | markdown (s : String)
  | textArea
  | tipsInfo
  | predictButton
  | predictionBox (label emoji color : String) (confidence : Rat)
  | errorMsg (msg : String)
  | warning (msg : String)
  | datasetInfo (rows cols : Nat)
  | dataPreview (shown : Nat)
  | downloadButton
  | pieChart
deriving DecidableEq, Repr

/-- Calls into the loaded artifacts, recorded so that claims of the form
`the vectorizer or classifier is never invoked` are statable. -/
inductive ArtifactCall where
  | transform (texts : List String)
  | predict
  | decisionFunction
deriving DecidableEq, Repr

/-- Characters the Python `str.strip()` default removes (ASCII whitespace;
the inputs the claims exercise are ASCII). -/
def pySpace (c : Char) : Bool :=
  c = ' ' ∨ c = '\t' ∨ c = '\n' ∨ c = '\r' ∨ c = '\x0b' ∨ c = '\x0c'

/-- Embedding of the Python `str.strip()` with no argument: drop leading
and trailing whitespace. -/
def pyStrip (s : String) : String :=
  ⟨((s.data.dropWhile pySpace).reverse.dropWhile pySpace).reverse⟩

/-- Embedding of the Python `str.lower()`: lowercase each character (the
labels the script compares are ASCII). -/
def pyLower (s : String) : String :=
  ⟨s.data.map Char.toLower⟩

/-- Text of the `st.error` call in `load_models` (app.py line 86). -/
def modelNotFoundMsg : String :=
  "❌ Model atau vectorizer tidak ditemukan. Pastikan file ada di folder \x27model/\x27"

/-- Text of the `st.error` call in `load_data` (app.py line 97). -/
def datasetNotFoundMsg : String :=
  "❌ Dataset tidak ditemukan. Pastikan file ada di folder \x27data/\x27"

/-- Text of the `st.warning` call of the empty-input branch
(app.py line 228). -/
def emptyInputMsg : String :=
  "⚠️ Silakan masukkan teks ulasan terlebih dahulu!"

/-- Embedding of `load_models` (app.py lines 79-87): try to `joblib.load`
the model, then the vectorizer; `except FileNotFoundError` shows an error
and returns `(None, None)`; any other exception from either load is
uncaught.  The two load attempts are passed in as their outcomes.  On the
`ok` path the result carries the loaded artifacts and the list of
`st.error` messages shown. -/
def load_models {M V : Type} (loadModel : PyResult M) (loadVect : PyResult V) :
    PyResult (Option M × Option V × List String) :=
  match loadModel with
  | .raised .fileNotFound => .ok (none, none, [modelNotFoundMsg])
  | .raised e => .raised e
  | .ok mdl =>
    match loadVect with
    | .raised .fileNotFound => .ok (none, none, [modelNotFoundMsg])
    | .raised e => .raised e
    | .ok v => .ok (some mdl, some v, [])

/-- Embedding of the lambda applied to one `stemming` cell (app.py line
94), which space-joins the result of `ast.literal_eval` when the cell is a
string and returns the cell unchanged otherwise.  The parameter `litEval`
is `ast.literal_eval`, which may raise. -/
def stemCell (litEval : String → PyResult (List String)) : Cell → PyResult Cell
  | .str s =>
    match litEval s with
    | .ok toks => .ok (.str (String.intercalate " " toks))
    | .raised e => .raised e
  | c => .ok c

/-- Embedding of the `apply` of that lambda over the `stemming` column,
row by row in order; the first exception raised by the lambda aborts the
whole apply. -/
def applyStemming (litEval : String → PyResult (List String)) :
    List Cell → PyResult (List Cell)
  | [] => .ok []
  | c :: cs =>
    match stemCell litEval c with
    | .raised e => .raised e
    | .ok c2 =>
      match applyStemming litEval cs with
      | .raised e => .raised e
      | .ok cs2 => .ok (c2 :: cs2)

/-- Body of the `try` block of `load_data` (app.py lines 93-95): read the
CSV, then rewrite the `stemming` column. -/
def load_data_body (readCsv : PyResult DataFrame)
    (litEval : String → PyResult (List String)) : PyResult DataFrame :=
  match readCsv with
  | .raised e => .raised e
  | .ok df =>
    match applyStemming litEval df.stemming with
    | .raised e => .raised e
    | .ok cells => .ok ⟨df.columns, cells⟩

/-- Embedding of `load_data` (app.py lines 90-98): the `try` body above,
with `except FileNotFoundError` showing an error and returning `None`;
every other exception is uncaught.  On the `ok` path the result carries
the dataframe (or `None`) and the `st.error` messages shown. -/
def load_data (readCsv : PyResult DataFrame)
    (litEval : String → PyResult (List String)) :
    PyResult (Option DataFrame × List String) :=
  match load_data_body readCsv litEval with
  | .ok df => .ok (some df, [])
  | .raised .fileNotFound => .ok (none, [datasetNotFoundMsg])
  | .raised e => .raised e

/-- Embedding of the `hasil_prediksi.lower()` dispatch (app.py lines
202-210), returning the `(emoji, color)` pair the result box is styled
with: the positive pair, the negative pair, or the neutral fallback
pair. -/
def styleFor (hasil_prediksi : String) : String × String :=
  if pyLower hasil_prediksi = "positif" then ("😊", "#4CAF50")
  else if pyLower hasil_prediksi = "negatif" then ("😞", "#F44336")
  else ("😐", "#FF9800")

/-- Embedding of the body under `if st.button(...)` of the Prediksi Manual
branch (app.py lines 194-228): the `user_input.strip()` truthiness guard,
then inside a `try` the three artifact calls
`vectorizer.transform([user_input])`, `model.predict(input_vector)[0]` and
`model.decision_function(input_vector)[0]`, then the styled result box
showing `abs(confidence)` and the label.  The `[0]` indexings raise
`IndexError` when the artifact returns an empty batch; that, like any
other exception here, is caught by the `except Exception` and rendered as
an error message.  Returns the rendered element together with the artifact
calls made. -/
def prediksiSubmit {F : Type} (v : Vectorizer F) (m : Model F)
    (user_input : String) : UIElement × List ArtifactCall :=
  if pyStrip user_input = "" then (.warning emptyInputMsg, [])
  else
    let input_vector := v.transform [user_input]
    let calls := [ArtifactCall.transform [user_input],
                  ArtifactCall.predict, ArtifactCall.decisionFunction]
    match (m.predict input_vector).head?, (m.decision_function input_vector).head? with
    | some hasil_prediksi, some confidence =>
      (.predictionBox hasil_prediksi (styleFor hasil_prediksi).1
        (styleFor hasil_prediksi).2 |confidence|, calls)
    | _, _ =>
      (.errorMsg "❌ Terjadi kesalahan dalam prediksi: IndexError", calls)

/-- Embedding of the whole Prediksi Manual view (app.py lines 173-228): a
header, then — only when `model is not None and vectorizer is not None` —
the input form, the tips box and the predict button; when the button is
pressed the submit body above runs.  Returns the rendered elements and the
artifact calls made. -/
def prediksiManualView {F : Type} (model : Option (Model F))
    (vectorizer : Option (Vectorizer F)) (user_input : String)
    (buttonPressed : Bool) : List UIElement × List ArtifactCall :=
  let hdr := UIElement.markdown "## 🧠 Prediksi Sentimen Manual"
  match model, vectorizer with
  | some m, some v =>
    let form := [hdr, UIElement.markdown "### ✍️ Masukkan Ulasan Anda",
                 UIElement.textArea, UIElement.tipsInfo, UIElement.predictButton]
    if buttonPressed then
      let rc := prediksiSubmit v m user_input
      (form ++ [rc.1], rc.2)
    else (form, [])
  | _, _ => ([hdr], [])

/-- Embedding of the Dashboard branch (app.py lines 122-137): it renders
the section header and then evaluates `label in df.columns` — with no
`df is not None` guard, so when `load_data` returned `None` this is an
attribute access on `None`, an uncaught `AttributeError`. -/
def dashboardView (df : Option DataFrame) : PyResult (List UIElement) :=
  match df with
  | none => .raised (.other "AttributeError: \x27NoneType\x27 object has no attribute \x27columns\x27")
  | some d =>
    if "label" ∈ d.columns then
      .ok [.markdown "### 📊 Distribusi Sentimen Cepat", .pieChart]
    else
      .ok [.markdown "### 📊 Distribusi Sentimen Cepat"]

/-- Embedding of the Dataset branch (app.py lines 140-170): a header, then
— only when `df is not None` — the info box, the row preview and the
download button. -/
def datasetView (df : Option DataFrame) (show_rows : Nat) : List UIElement :=
  let hdr := UIElement.markdown "## 📄 Dataset Mobile JKN"
  match df with
  | none => [hdr]
  | some d =>
    [hdr, .datasetInfo d.stemming.length d.columns.length,
     .dataPreview show_rows, .downloadButton]

/-- Process-wide state of the script after the two cached loaders ran: the
artifacts and the dataframe, each possibly `None`. -/
structure AppState (F : Type) where
  model : Option (Model F)
  vectorizer : Option (Vectorizer F)
  df : Option DataFrame

/-- One user action on the Prediksi Manual view, as a state transformer:
the branch reads `model`, `vectorizer` and the input but assigns none of
the cached globals, so the state it returns is the state it was given. -/
def runPrediction {F : Type} (st : AppState F) (user_input : String)
    (buttonPressed : Bool) :
    (List UIElement × List ArtifactCall) × AppState F :=
  (prediksiManualView st.model st.vectorizer user_input buttonPressed, st)

/-- A trivial vectorizer over a unit feature type, used to instantiate the
opaque artifact parameters in concrete witnesses. -/
def unitVectorizer : Vectorizer Unit := ⟨fun _ => ()⟩

/-- A concrete model that labels every input `Positif` with margin
`-3/2`, used to instantiate the opaque artifact parameters in concrete
witnesses. -/
def demoModel : Model Unit := ⟨fun _ => ["Positif"], fun _ => [-(3/2 : Rat)]⟩

/-- A concrete stand-in for `ast.literal_eval` that raises a `ValueError`
on every input, as the real one does on a malformed cell. -/
def failingLitEval : String → PyResult (List String) := fun s =>
  .raised (.other ("ValueError: malformed node or string: " ++ s))

/-- A concrete stand-in for `ast.literal_eval` that deserializes the one
serialized cell used by witnesses and raises on anything else. -/
def demoLitEval : String → PyResult (List String) := fun s =>
  if s = "[apl, bagus]" then .ok ["apl", "bagus"]
  else .raised (.other "ValueError")


/-- C1: for every input text that is non-empty after trimming, with loaded
artifacts, the Prediksi Manual submit computes the label as the first
element of the output of `predict` of the model on the result of
`transform` of the vectorizer on the one-element list holding the text,
and the displayed confidence as the absolute value of the first element of
the output of `decision_function` of the model on that same feature
vector. -/
theorem c1_predict_and_confidence {F : Type} (v : Vectorizer F) (m : Model F)
    (t : String) (hne : pyStrip t ≠ "")
    (label : String) (ls : List String) (c : Rat) (cs : List Rat)
    (hp : m.predict (v.transform [t]) = label :: ls)
    (hd : m.decision_function (v.transform [t]) = c :: cs) :
    prediksiManualView (some m) (some v) t true =
      ([UIElement.markdown "## 🧠 Prediksi Sentimen Manual",
        UIElement.markdown "### ✍️ Masukkan Ulasan Anda",
        UIElement.textArea, UIElement.tipsInfo, UIElement.predictButton,
        UIElement.predictionBox label (styleFor label).1 (styleFor label).2 |c|],
       [ArtifactCall.transform [t], ArtifactCall.predict,
        ArtifactCall.decisionFunction]) := by
  simp [prediksiManualView, prediksiSubmit, hne, hp, hd]

/-- Witness for C1 at concrete artifacts and input. -/
theorem c1_witness :
    pyStrip "bagus" ≠ "" ∧
    prediksiManualView (some demoModel) (some unitVectorizer) "bagus" true =
      ([UIElement.markdown "## 🧠 Prediksi Sentimen Manual",
        UIElement.markdown "### ✍️ Masukkan Ulasan Anda",
        UIElement.textArea, UIElement.tipsInfo, UIElement.predictButton,
        UIElement.predictionBox "Positif" "😊" "#4CAF50" (3/2 : Rat)],
       [ArtifactCall.transform ["bagus"], ArtifactCall.predict,
        ArtifactCall.decisionFunction]) := by
  refine ⟨by decide, ?_⟩
  have h := c1_predict_and_confidence unitVectorizer demoModel "bagus"
    (by decide) "Positif" [] (-(3/2 : Rat)) [] rfl rfl
  rw [h]
  have hs : styleFor "Positif" = ("😊", "#4CAF50") := by decide
  rw [hs]
  norm_num

/-- C2: the label-to-presentation mapping of the script maps any casing of
the literal `positif` to the positive style pair, any casing of `negatif`
to the negative style pair, and every other label value to the neutral
fallback style pair, never to an error. -/
theorem c2_label_presentation_mapping (s : String) :
    (pyLower s = "positif" → styleFor s = ("😊", "#4CAF50"))
    ∧ (pyLower s = "negatif" → styleFor s = ("😞", "#F44336"))
    ∧ (pyLower s ≠ "positif" → pyLower s ≠ "negatif" →
        styleFor s = ("😐", "#FF9800")) := by
  refine ⟨fun h => ?_, fun h => ?_, fun h1 h2 => ?_⟩
  · simp [styleFor, h]
  · simp [styleFor, h]
  · simp [styleFor, h1, h2]

/-- Witness for C2 at concrete labels in each of the three buckets. -/
theorem c2_witness :
    styleFor "POSITIF" = ("😊", "#4CAF50")
    ∧ styleFor "Negatif" = ("😞", "#F44336")
    ∧ styleFor "netral" = ("😐", "#FF9800") :=
  ⟨(c2_label_presentation_mapping "POSITIF").1 (by decide),
   (c2_label_presentation_mapping "Negatif").2.1 (by decide),
   (c2_label_presentation_mapping "netral").2.2 (by decide) (by decide)⟩

/-- C3: whenever the Prediksi Manual submit renders a prediction box, the
confidence value it surfaces is non-negative, whatever the sign of the
underlying decision-function margin. -/
theorem c3_confidence_nonneg {F : Type} (v : Vectorizer F) (m : Model F)
    (t lbl e col : String) (conf : Rat)
    (h : (prediksiSubmit v m t).1 = UIElement.predictionBox lbl e col conf) :
    0 ≤ conf := by
  by_cases ht : pyStrip t = ""
  · simp [prediksiSubmit, ht] at h
  · rcases hp : (m.predict (v.transform [t])).head? with _ | label <;>
      rcases hd : (m.decision_function (v.transform [t])).head? with _ | c <;>
      simp [prediksiSubmit, ht, hp, hd] at h
    rcases h with ⟨-, -, -, hc⟩
    rw [← hc]
    exact abs_nonneg c

/-- Witness for C3 at concrete artifacts whose margin is negative. -/
theorem c3_witness :
    (prediksiSubmit unitVectorizer demoModel "bagus").1 =
      UIElement.predictionBox "Positif" "😊" "#4CAF50" (3/2 : Rat)
    ∧ 0 ≤ (3/2 : Rat) := by
  have hbox : (prediksiSubmit unitVectorizer demoModel "bagus").1 =
      UIElement.predictionBox "Positif" "😊" "#4CAF50" (3/2 : Rat) := by
    have hs : styleFor "Positif" = ("😊", "#4CAF50") := by decide
    simp [prediksiSubmit, show pyStrip "bagus" ≠ "" by decide,
      unitVectorizer, demoModel, hs]
    norm_num
  exact ⟨hbox,
    c3_confidence_nonneg unitVectorizer demoModel "bagus" "Positif" "😊"
      "#4CAF50" (3/2 : Rat) hbox⟩

/-- C4: for every input text that is empty or whitespace-only, submitting
a prediction with loaded artifacts renders the form followed by the
empty-input warning, and no artifact call (transform, predict or
decision_function) is made. -/
theorem c4_empty_input_short_circuit {F : Type} (v : Vectorizer F)
    (m : Model F) (t : String) (h : pyStrip t = "") :
    prediksiManualView (some m) (some v) t true =
      ([UIElement.markdown "## 🧠 Prediksi Sentimen Manual",
        UIElement.markdown "### ✍️ Masukkan Ulasan Anda",
        UIElement.textArea, UIElement.tipsInfo, UIElement.predictButton,
        UIElement.warning emptyInputMsg], []) := by
  simp [prediksiManualView, prediksiSubmit, h]

/-- Witness for C4 at a whitespace-only input. -/
theorem c4_witness :
    pyStrip "   " = "" ∧
    prediksiManualView (some demoModel) (some unitVectorizer) "   " true =
      ([UIElement.markdown "## 🧠 Prediksi Sentimen Manual",
        UIElement.markdown "### ✍️ Masukkan Ulasan Anda",
        UIElement.textArea, UIElement.tipsInfo, UIElement.predictButton,
        UIElement.warning emptyInputMsg], []) :=
  ⟨by decide, c4_empty_input_short_circuit unitVectorizer demoModel "   " (by decide)⟩

/-- C5 counterexample: an artifact file that exists but fails to
deserialize (joblib raising an `UnpicklingError`, which is not a
`FileNotFoundError`) makes `load_models` propagate the exception instead
of reporting a non-crashing error. -/
theorem c5_counterexample :
    load_models (M := Unit) (V := Unit) (.ok ())
        (.raised (.other "UnpicklingError: invalid load key")) =
      .raised (.other "UnpicklingError: invalid load key") := rfl

/-- C5 as amended: artifact initialization reports a non-crashing error —
the not-found message, with both artifacts `None` — when either load
raises `FileNotFoundError`; and with the artifacts `None` the Manual
Prediction view renders only its header while the Dataset view of a
loaded dataframe still renders its preview. -/
theorem c5_filenotfound_degrades {M V F : Type} (lm : PyResult M)
    (lv : PyResult V)
    (h : lm = .raised .fileNotFound ∨
      ∃ mdl, lm = .ok mdl ∧ lv = .raised .fileNotFound) :
    load_models lm lv = .ok (none, none, [modelNotFoundMsg])
    ∧ (∀ (t : String) (b : Bool),
        prediksiManualView (F := F) none none t b =
          ([UIElement.markdown "## 🧠 Prediksi Sentimen Manual"], []))
    ∧ (∀ (d : DataFrame) (n : Nat),
        UIElement.dataPreview n ∈ datasetView (some d) n) := by
  refine ⟨?_, fun t b => rfl, fun d n => by simp [datasetView]⟩
  rcases h with h | ⟨mdl, h1, h2⟩
  · subst h; rfl
  · subst h1; subst h2; rfl

/-- Witness for the amended C5 at a missing model file. -/
theorem c5_witness :
    load_models (M := Unit) (V := Unit) (.raised .fileNotFound) (.ok ()) =
      .ok (none, none, [modelNotFoundMsg])
    ∧ prediksiManualView (F := Unit) none none "abc" true =
        ([UIElement.markdown "## 🧠 Prediksi Sentimen Manual"], [])
    ∧ UIElement.dataPreview 10 ∈ datasetView (some ⟨["label"], []⟩) 10 := by
  have h := c5_filenotfound_degrades (M := Unit) (V := Unit) (F := Unit)
    (.raised .fileNotFound) (.ok ()) (Or.inl rfl)
  exact ⟨h.1, h.2.1 "abc" true, h.2.2 ⟨["label"], []⟩ 10⟩

/-- C6, the code evaluated at the failing input: when the dataset file is
absent `load_data` hands the Dashboard branch `None`, and the branch —
which tests `df.columns` with no `df is not None` guard — raises an
uncaught `AttributeError` instead of reporting and continuing to
render. -/
theorem c6_dashboard_crash_on_missing_dataset :
    dashboardView none =
      .raised (.other "AttributeError: \x27NoneType\x27 object has no attribute \x27columns\x27") :=
  rfl

/-- C7 counterexample: a dataset whose `stemming` cell is a string that
`ast.literal_eval` rejects makes `load_data` propagate the `ValueError`
instead of catching and reporting it. -/
theorem c7_counterexample :
    load_data (.ok ⟨["content", "stemming", "label"], [Cell.str "not a list"]⟩)
        failingLitEval =
      .raised (.other "ValueError: malformed node or string: not a list") := by
  decide

/-- C7 as amended: loading the dataset reports a caught, non-fatal error —
the not-found message with a `None` dataframe — exactly when the read
raises `FileNotFoundError`; any other exception, from an unparsable file
or from a `stemming` cell whose deserialization raises, propagates
uncaught. -/
theorem c7_only_filenotfound_caught
    (litEval : String → PyResult (List String)) :
    (load_data (.raised .fileNotFound) litEval = .ok (none, [datasetNotFoundMsg]))
    ∧ (∀ msg, load_data (.raised (.other msg)) litEval = .raised (.other msg))
    ∧ (∀ (df : DataFrame) (msg : String),
        applyStemming litEval df.stemming = .raised (.other msg) →
        load_data (.ok df) litEval = .raised (.other msg)) := by
  refine ⟨rfl, fun msg => rfl, fun df msg h => ?_⟩
  simp [load_data, load_data_body, h]

/-- Witness for the amended C7 at concrete read outcomes and a concrete
failing deserializer. -/
theorem c7_witness :
    load_data (.raised .fileNotFound) failingLitEval =
      .ok (none, [datasetNotFoundMsg])
    ∧ load_data (.raised (.other "ParserError")) failingLitEval =
        .raised (.other "ParserError")
    ∧ load_data (.ok ⟨["stemming"], [Cell.str "oops"]⟩) failingLitEval =
        .raised (.other "ValueError: malformed node or string: oops") := by
  have h := c7_only_filenotfound_caught failingLitEval
  exact ⟨h.1, h.2.1 "ParserError",
    h.2.2 ⟨["stemming"], [Cell.str "oops"]⟩
      "ValueError: malformed node or string: oops" (by decide)⟩

/-- Helper: a successful `applyStemming` keeps the number of rows and is
`stemCell` row by row. -/
theorem applyStemming_ok_length_get
    (litEval : String → PyResult (List String)) :
    ∀ (cells cells2 : List Cell), applyStemming litEval cells = .ok cells2 →
      cells2.length = cells.length ∧
      ∀ (i : Nat) (hi : i < cells.length) (hi2 : i < cells2.length),
        stemCell litEval (cells.get ⟨i, hi⟩) = .ok (cells2.get ⟨i, hi2⟩) := by
  intro cells
  induction cells with
  | nil =>
    intro cells2 h
    simp only [applyStemming] at h
    cases h
    exact ⟨rfl, fun i hi _ => absurd hi (Nat.not_lt_zero i)⟩
  | cons c cs ih =>
    intro cells2 h
    simp only [applyStemming] at h
    cases hsc : stemCell litEval c with
    | raised e => rw [hsc] at h; cases h
    | ok c2 =>
      rw [hsc] at h
      cases hrest : applyStemming litEval cs with
      | raised e => rw [hrest] at h; cases h
      | ok cs2 =>
        rw [hrest] at h
        cases h
        obtain ⟨hlen, hget⟩ := ih cs2 hrest
        refine ⟨by simp [hlen], ?_⟩
        intro i hi hi2
        cases i with
        | zero => exact hsc
        | succ n => exact hget n (by simpa using hi) (by simpa using hi2)

/-- C8: when `load_data` succeeds on a read dataframe, every row of the
`stemming` column that held a string has been deserialized and replaced by
the space-joined concatenation of its tokens, and every non-string row is
unchanged. -/
theorem c8_stemming_deserialized
    (litEval : String → PyResult (List String)) (df df2 : DataFrame)
    (msgs : List String)
    (h : load_data (.ok df) litEval = .ok (some df2, msgs))
    (i : Nat) (hi : i < df.stemming.length) (hi2 : i < df2.stemming.length) :
    (∀ s, df.stemming.get ⟨i, hi⟩ = Cell.str s →
      ∃ toks, litEval s = .ok toks ∧
        df2.stemming.get ⟨i, hi2⟩ = Cell.str (String.intercalate " " toks))
    ∧ (∀ tag, df.stemming.get ⟨i, hi⟩ = Cell.nonStr tag →
        df2.stemming.get ⟨i, hi2⟩ = Cell.nonStr tag) := by
  cases happ : applyStemming litEval df.stemming with
  | raised e => cases e <;> simp [load_data, load_data_body, happ] at h
  | ok cells =>
    simp only [load_data, load_data_body, happ] at h
    obtain ⟨h1, -⟩ : (⟨df.columns, cells⟩ : DataFrame) = df2 ∧ [] = msgs := by
      cases h; exact ⟨rfl, rfl⟩
    obtain ⟨hlen, hget⟩ := applyStemming_ok_length_get litEval df.stemming cells happ
    have hi2c : i < cells.length := by rw [← h1] at hi2; exact hi2
    have hsc := hget i hi hi2c
    have hcell : df2.stemming.get ⟨i, hi2⟩ = cells.get ⟨i, hi2c⟩ := by
      subst h1; rfl
    constructor
    · intro s hs
      rw [hs] at hsc
      cases hle : litEval s with
      | ok toks =>
        refine ⟨toks, rfl, ?_⟩
        rw [stemCell, hle] at hsc
        injection hsc with hsc
        rw [hcell]
        exact hsc.symm
      | raised e => rw [stemCell, hle] at hsc; cases hsc
    · intro tag htag
      rw [htag] at hsc
      have hsc2 : PyResult.ok (Cell.nonStr tag) =
          PyResult.ok (cells.get ⟨i, hi2c⟩) := hsc
      injection hsc2 with hsc2
      rw [hcell]
      exact hsc2.symm

/-- Witness for C8 on a two-row dataset with one serialized string cell
and one non-string cell. -/
theorem c8_witness :
    load_data (.ok ⟨["stemming"], [Cell.str "[apl, bagus]", Cell.nonStr "nan"]⟩)
        demoLitEval =
      .ok (some ⟨["stemming"], [Cell.str "apl bagus", Cell.nonStr "nan"]⟩, [])
    ∧ (∃ toks, demoLitEval "[apl, bagus]" = .ok toks ∧
        Cell.str "apl bagus" = Cell.str (String.intercalate " " toks)) := by
  have h := c8_stemming_deserialized demoLitEval
    ⟨["stemming"], [Cell.str "[apl, bagus]", Cell.nonStr "nan"]⟩
    ⟨["stemming"], [Cell.str "apl bagus", Cell.nonStr "nan"]⟩ []
    (by decide) 0 (by decide) (by decide)
  exact ⟨by decide, h.1 "[apl, bagus]" rfl⟩

/-- C9: for a fixed loaded state and fixed input, running the
classification action twice yields the same rendered output, and neither
run mutates the artifacts or the dataset held in the state. -/
theorem c9_classification_pure {F : Type} (st : AppState F) (t : String)
    (b : Bool) :
    (runPrediction st t b).2 = st
    ∧ (runPrediction ((runPrediction st t b).2) t b).1 =
        (runPrediction st t b).1
    ∧ (runPrediction ((runPrediction st t b).2) t b).2 = st :=
  ⟨rfl, rfl, rfl⟩

/-- C10: whenever the model or the vectorizer failed to load (is `None`),
the Manual Prediction view renders neither the input form nor the predict
button, and no artifact call is ever made. -/
theorem c10_no_form_when_artifacts_missing {F : Type} (mo : Option (Model F))
    (vo : Option (Vectorizer F)) (t : String) (b : Bool)
    (h : mo = none ∨ vo = none) :
    (prediksiManualView mo vo t b).2 = []
    ∧ UIElement.textArea ∉ (prediksiManualView mo vo t b).1
    ∧ UIElement.predictButton ∉ (prediksiManualView mo vo t b).1 := by
  have hview : prediksiManualView mo vo t b =
      ([UIElement.markdown "## 🧠 Prediksi Sentimen Manual"], []) := by
    rcases h with h | h
    · subst h; rfl
    · subst h; cases mo <;> rfl
  rw [hview]
  exact ⟨rfl, by decide, by decide⟩

/-- Witness for C10 with both artifacts missing. -/
theorem c10_witness :
    (prediksiManualView (F := Unit) none none "abc" true).2 = []
    ∧ UIElement.textArea ∉ (prediksiManualView (F := Unit) none none "abc" true).1
    ∧ UIElement.predictButton ∉ (prediksiManualView (F := Unit) none none "abc" true).1 :=
  c10_no_form_when_artifacts_missing none none "abc" true (Or.inl rfl)
